import Mathlib

/-!
Verification development for the SQL-generator repository.

The JavaScript sources are shallowly embedded: JS strings become `List Char`
(or Lean `String` at the interfaces), JS numbers that matter here are exact
(`Nat`/`Int`/`Rat`), fallible functions return `Except String`.  The special
JS value `-Infinity` produced by `Math.max()` on an empty argument list is
modelled by a dedicated constructor of `JSNum`.
-/

set_option maxRecDepth 4096

/-- Model of the JS values that flow through the generator: `null`,
`undefined`, strings, (integer) numbers and booleans. -/
inductive JSVal where
  | null : JSVal
  | undef : JSVal
  | str : String → JSVal
  | num : Int → JSVal
  | bool : Bool → JSVal
deriving DecidableEq, Repr

/-- Model of a JS number that is either an ordinary value or `-Infinity`
(the result of `Math.max()` with no arguments). -/
inductive JSNum where
  | negInf : JSNum
  | val : Nat → JSNum
deriving DecidableEq, Repr

/-- Behaviour of `Math.max(...xs)` on a list of naturals: `-Infinity` when
the list is empty, otherwise the maximum. -/
def jsMathMax : List Nat → JSNum
  | [] => JSNum.negInf
  | x :: xs => JSNum.val (xs.foldl max x)

/-- Character for the ASCII single quote, written via its code point. -/
def sqChar : Char := Char.ofNat 39

/-- One-character string holding a single quote. -/
def sqStr : String := String.mk [sqChar]

/-- Membership of a character in the JS `\s` / `String.trim` whitespace
class (WhiteSpace plus LineTerminator code points). -/
def isJsWhitespace (c : Char) : Bool :=
  c.val = 0x9 || c.val = 0xA || c.val = 0xB || c.val = 0xC || c.val = 0xD ||
  c.val = 0x20 || c.val = 0xA0 || c.val = 0x1680 ||
  (0x2000 ≤ c.val && c.val ≤ 0x200A) ||
  c.val = 0x2028 || c.val = 0x2029 || c.val = 0x202F || c.val = 0x205F ||
  c.val = 0x3000 || c.val = 0xFEFF

/-- Behaviour of `String.prototype.trim`: whitespace dropped from both
ends of the character sequence. -/
def trimList (l : List Char) : List Char :=
  ((l.dropWhile isJsWhitespace).reverse.dropWhile isJsWhitespace).reverse

/-- UTF-8 byte size of a character sequence, as a file holding the text
would measure it. -/
def byteLength (l : List Char) : Nat :=
  (l.map Char.utf8Size).sum

/-- Behaviour of `String.prototype.toLowerCase` on the identifiers this
program handles (per-character lowering). -/
def jsToLower (s : String) : String :=
  String.mk (s.data.map Char.toLower)

/-- Behaviour of `String.prototype.toUpperCase` on the identifiers this
program handles (per-character raising). -/
def jsToUpper (s : String) : String :=
  String.mk (s.data.map Char.toUpper)

namespace CSVParser

/-- Constant `this.maxRows` of `CSVParser` (safety limit on parsed rows). -/
def maxRows : Nat := 100000

/-- Constant `this.maxFileSize` of `CSVParser` (10MB).  The field is
declared by the constructor of `csv-parser.js`; `parseCSVText` never
consults it. -/
def maxFileSize : Nat := 10 * 1024 * 1024

/-- Translation of `removeBOM`: strips a leading U+FEFF code point, or the
three-byte form EF BB BF read as individual characters. -/
def removeBOM (l : List Char) : List Char :=
  match l with
  | [] => []
  | c :: rest =>
    if c.val = 0xFEFF then rest
    else if l.take 3 = [Char.ofNat 0xEF, Char.ofNat 0xBB, Char.ofNat 0xBF] then l.drop 3
    else l

/-- Helper used by `splitLines`: pushes a character onto the first line of
an accumulated line list. -/
def consHead (c : Char) : List (List Char) → List (List Char)
  | [] => [[c]]
  | h :: t => (c :: h) :: t

/-- Translation of `csvText.split(/\r?\n/)`: lines are separated by a bare
LF or by a CR LF pair; a lone CR stays inside its line. -/
def splitLines : List Char → List (List Char)
  | [] => [[]]
  | [c] =>
    if c = Char.ofNat 10 then [[], []]
    else [[c]]
  | c :: c2 :: rest2 =>
    if c = Char.ofNat 10 then [] :: splitLines (c2 :: rest2)
    else if c = Char.ofNat 13 then
      if c2 = Char.ofNat 10 then [] :: splitLines rest2
      else consHead c (splitLines (c2 :: rest2))
    else consHead c (splitLines (c2 :: rest2))

/-- Options record of `parseCSVText` with the JS default values. -/
structure Options where
  delimiter : Option Char := none
  hasHeader : Bool := true
  encoding : String := "UTF-8"
  skipEmptyLines : Bool := true
  trimValues : Bool := true
deriving DecidableEq, Repr

/-- Loop body of `parseCSVLine`: `cur` is the field being accumulated,
`inQuotes`/`quoteChar` mirror the quote state machine, and a doubled
quote character inside an open quote is an escaped literal quote. -/
def parseLineAux (delim : Char) (trimValues : Bool) :
    List Char → List Char → Bool → Char → List (List Char)
  | [], cur, _, _ => [if trimValues then trimList cur else cur]
  | [c], cur, inQuotes, quoteChar =>
    if c = Char.ofNat 34 ∨ c = sqChar then
      if !inQuotes then [if trimValues then trimList cur else cur]
      else if c = quoteChar then [if trimValues then trimList cur else cur]
      else [if trimValues then trimList (cur ++ [c]) else cur ++ [c]]
    else if c = delim ∧ !inQuotes then
      [if trimValues then trimList cur else cur, if trimValues then trimList [] else []]
    else [if trimValues then trimList (cur ++ [c]) else cur ++ [c]]
  | c :: c2 :: rest2, cur, inQuotes, quoteChar =>
    if c = Char.ofNat 34 ∨ c = sqChar then
      if !inQuotes then parseLineAux delim trimValues (c2 :: rest2) cur true c
      else if c = quoteChar then
        if c2 = quoteChar then
          parseLineAux delim trimValues rest2 (cur ++ [c]) inQuotes quoteChar
        else parseLineAux delim trimValues (c2 :: rest2) cur false quoteChar
      else parseLineAux delim trimValues (c2 :: rest2) (cur ++ [c]) inQuotes quoteChar
    else if c = delim ∧ !inQuotes then
      (if trimValues then trimList cur else cur) ::
        parseLineAux delim trimValues (c2 :: rest2) [] inQuotes quoteChar
    else parseLineAux delim trimValues (c2 :: rest2) (cur ++ [c]) inQuotes quoteChar

/-- Translation of `parseCSVLine`: quote-aware tokenization of one line. -/
def parseCSVLine (line : List Char) (delim : Char) (trimValues : Bool) : List (List Char) :=
  parseLineAux delim trimValues line [] false (Char.ofNat 34)

/-- Loop body of `countDelimiterOccurrences`, tracking the quote state.
The initial quote character is only consulted once `inQuotes` is true, at
which point it has been assigned, so the seed value is irrelevant. -/
def countOccAux (delim : Char) : List Char → Bool → Char → Nat
  | [], _, _ => 0
  | [c], inQuotes, quoteChar =>
    if (c = Char.ofNat 34 ∨ c = sqChar) ∧ !inQuotes then 0
    else if c = quoteChar ∧ inQuotes then 0
    else if c = delim ∧ !inQuotes then 1
    else 0
  | c :: c2 :: rest2, inQuotes, quoteChar =>
    if (c = Char.ofNat 34 ∨ c = sqChar) ∧ !inQuotes then
      countOccAux delim (c2 :: rest2) true c
    else if c = quoteChar ∧ inQuotes then
      (if c2 = quoteChar then countOccAux delim rest2 inQuotes quoteChar
       else countOccAux delim (c2 :: rest2) false quoteChar)
    else if c = delim ∧ !inQuotes then
      1 + countOccAux delim (c2 :: rest2) inQuotes quoteChar
    else countOccAux delim (c2 :: rest2) inQuotes quoteChar

/-- Translation of `countDelimiterOccurrences`. -/
def countDelimiterOccurrences (line : List Char) (delim : Char) : Nat :=
  countOccAux delim line false (Char.ofNat 34)

/-- Candidate delimiters probed by `detectDelimiter`. -/
def candidateDelimiters : List Char := [Char.ofNat 44, Char.ofNat 59, Char.ofNat 9, Char.ofNat 124]

/-- Translation of `detectDelimiter`: strictly-highest count wins, comma on
tie or all-zero. -/
def detectDelimiter (line : List Char) : Char :=
  let step := fun (best : Char × Nat) (d : Char) =>
    let c := countDelimiterOccurrences line d
    if c > best.2 then (d, c) else best
  (candidateDelimiters.foldl step (Char.ofNat 44, 0)).1

/-- Metadata block of the parsed table. -/
structure Metadata where
  originalLineCount : Nat
  processedRows : Nat
  skippedRows : Int
  hasHeader : Bool
  maxColumnCount : JSNum
deriving DecidableEq, Repr

/-- Result record of `parseCSVText`. -/
structure RawTable where
  headers : List (List Char)
  rows : List (List (List Char))
  totalRows : Nat
  columns : Nat
  delimiter : Char
  encoding : String
  metadata : Metadata
deriving DecidableEq, Repr

/-- Padding step of the row loop: fields are appended until the row is as
long as the header; a longer row is left untouched. -/
def padRow (headerLen : Nat) (row : List (List Char)) : List (List Char) :=
  row ++ List.replicate (headerLen - row.length) []

/-- Row loop of `parseCSVText`: stops at `maxRows`, skips all-empty rows
when requested, pads each kept row to the header length. -/
def parseRowsAux (delim : Char) (trimValues skipEmptyLines : Bool) (headerLen : Nat) :
    List (List Char) → Nat → List (List (List Char))
  | [], _ => []
  | line :: rest, count =>
    if count ≥ maxRows then []
    else
      let rowData := parseCSVLine line delim trimValues
      if skipEmptyLines ∧ rowData.all (· = []) then
        parseRowsAux delim trimValues skipEmptyLines headerLen rest count
      else
        padRow headerLen rowData :: parseRowsAux delim trimValues skipEmptyLines headerLen rest (count + 1)

/-- Lines of the input after BOM removal, newline splitting and (when
requested) dropping of blank lines — the `lines` variable of
`parseCSVText` at the point it is length-checked. -/
def linesOf (text : List Char) (opts : Options) : List (List Char) :=
  let ls := splitLines (removeBOM text)
  if opts.skipEmptyLines then ls.filter (fun l => trimList l ≠ []) else ls

/-- Synthetic header names `Column_1`, `Column_2`, … used when
`hasHeader` is false. -/
def defaultHeaders (n : Nat) : List (List Char) :=
  (List.range n).map (fun i => ("Column_" ++ toString (i + 1)).data)

/-- Construction of the returned table record from the parsed pieces:
the row loop runs over the data lines and every derived count is taken
from its result. -/
def mkRawTable (opts : Options) (delim : Char) (headers : List (List Char))
    (lineCount : Nat) (dataLines : List (List Char)) : RawTable :=
  let rows := parseRowsAux delim opts.trimValues opts.skipEmptyLines headers.length dataLines 0
  { headers := headers
    rows := rows
    totalRows := rows.length
    columns := headers.length
    delimiter := delim
    encoding := opts.encoding
    metadata := {
      originalLineCount := lineCount
      processedRows := rows.length
      skippedRows := (lineCount : Int) - rows.length - (if opts.hasHeader then 1 else 0)
      hasHeader := opts.hasHeader
      maxColumnCount := jsMathMax (rows.map List.length)
    } }

/-- Translation of `parseCSVText`.  Every `throw` of the JS code becomes
an `Except.error` carrying the JS message (already wrapped in the
`CSV parsing failed:` text added by the surrounding catch).  The data
lines are the lines after the header row when `hasHeader` is set, all
lines otherwise. -/
def parseCSVText (text : List Char) (opts : Options) : Except String RawTable :=
  if text = [] then .error "CSV parsing failed: Invalid CSV text input"
  else
    match linesOf text opts with
    | [] => .error "CSV parsing failed: CSV file is empty"
    | l0 :: restLines =>
      let delim := opts.delimiter.getD (detectDelimiter l0)
      let headers :=
        if opts.hasHeader then parseCSVLine l0 delim opts.trimValues
        else defaultHeaders (parseCSVLine l0 delim opts.trimValues).length
      if headers = [] then .error "CSV parsing failed: No headers found in CSV file"
      else
        .ok (mkRawTable opts delim headers (l0 :: restLines).length
          (if opts.hasHeader then restLines else l0 :: restLines))

end CSVParser

namespace FieldMapper

/-- Digit-run test shared by the numeric patterns. -/
def digitRun (l : List Char) : Bool :=
  !l.isEmpty && l.all (·.isDigit)

/-- Translation of the regex `^-?\d+$`. -/
def matchInteger (l : List Char) : Bool :=
  match l with
  | c :: rest => if c = Char.ofNat 45 then digitRun rest else digitRun l
  | [] => false

/-- Translation of the regex `^-?\d+\.\d+$`: the dot is not a digit, so
the greedy digit run before it is forced. -/
def matchDecimal (l : List Char) : Bool :=
  let core := fun (m : List Char) =>
    let ip := m.takeWhile (·.isDigit)
    match m.dropWhile (·.isDigit) with
    | c :: fp => !ip.isEmpty && c = Char.ofNat 46 && digitRun fp
    | [] => false
  match l with
  | c :: rest => if c = Char.ofNat 45 then core rest else core l
  | [] => false

/-- Translation of the case-insensitive regex
`^(true|false|1|0|yes|no|y|n)$`. -/
def matchBoolean (l : List Char) : Bool :=
  let low := l.map Char.toLower
  ["true", "false", "1", "0", "yes", "no", "y", "n"].any (fun s => s.data = low)

/-- Translation of the regex `^\d{4}-\d{2}-\d{2}$`. -/
def matchDate (l : List Char) : Bool :=
  match l with
  | [y1, y2, y3, y4, d1, m1, m2, d2, a1, a2] =>
    y1.isDigit && y2.isDigit && y3.isDigit && y4.isDigit &&
    d1 = Char.ofNat 45 && m1.isDigit && m2.isDigit &&
    d2 = Char.ofNat 45 && a1.isDigit && a2.isDigit
  | _ => false

/-- Translation of `\d{2}:\d{2}:\d{2}` anchored at the end of the line. -/
def matchTimeTail (l : List Char) : Bool :=
  match l with
  | [h1, h2, c1, m1, m2, c2, s1, s2] =>
    h1.isDigit && h2.isDigit && c1 = Char.ofNat 58 &&
    m1.isDigit && m2.isDigit && c2 = Char.ofNat 58 &&
    s1.isDigit && s2.isDigit
  | _ => false

/-- Translation of the regex `^\d{4}-\d{2}-\d{2}\s+\d{2}:\d{2}:\d{2}$`:
digits are not whitespace, so the greedy `\s+` run is forced. -/
def matchDatetime (l : List Char) : Bool :=
  matchDate (l.take 10) &&
    (let rest := l.drop 10
     !(rest.takeWhile isJsWhitespace).isEmpty &&
       matchTimeTail (rest.dropWhile isJsWhitespace))

/-- Translation of the regex `^[^\s@]+@[^\s@]+\.[^\s@]+$`: no whitespace
anywhere, exactly one at-sign that is not the first character, and a dot
strictly inside the part after the at-sign. -/
def matchEmail (l : List Char) : Bool :=
  let afterAt := (l.dropWhile (fun c => ¬ c = Char.ofNat 64)).tail
  l.all (fun c => !isJsWhitespace c) &&
  l.count (Char.ofNat 64) = 1 &&
  (match l with
   | c :: _ => !(c = Char.ofNat 64)
   | [] => false) &&
  afterAt.tail.dropLast.contains (Char.ofNat 46)

/-- Ordered predicate list of `analyzeField` (`typeChecks` in the JS). -/
def typeChecks : List (String × (List Char → Bool)) :=
  [("integer", matchInteger), ("decimal", matchDecimal), ("boolean", matchBoolean),
   ("datetime", matchDatetime), ("date", matchDate), ("email", matchEmail)]

/-- Lookup in `this.sqlTypes` for the categories the type loop can win. -/
def sqlTypeFor (t : String) : String :=
  match t with
  | "integer" => "INT"
  | "decimal" => "DECIMAL(10,2)"
  | "boolean" => "BOOLEAN"
  | "date" => "DATE"
  | "datetime" => "DATETIME"
  | "email" => "VARCHAR(255)"
  | "shortText" => "VARCHAR(255)"
  | "longText" => "TEXT"
  | _ => "VARCHAR(255)"

/-- Fraction of the non-empty values matched by one predicate, on the
trimmed value (`check.pattern.test(String(v).trim())`).  The JS quotient
of floats is modelled by the exact rational. -/
def confidenceOf (nonEmpty : List String) (pat : List Char → Bool) : Rat :=
  ((nonEmpty.filter (fun v => pat (trimList v.data))).length : Rat) / (nonEmpty.length : Rat)

/-- Type-check loop of `analyzeField`: first predicate whose confidence
reaches the 0.8 threshold wins, in list order. -/
def analyzeLoop (nonEmpty : List String) : List (String × (List Char → Bool)) → Option (String × Rat)
  | [] => none
  | (name, pat) :: rest =>
    let conf := confidenceOf nonEmpty pat
    if (4 : Rat) / 5 ≤ conf then some (name, conf) else analyzeLoop nonEmpty rest

/-- Result record of `analyzeField`. -/
structure FieldAnalysis where
  jsType : String
  sqlType : String
  confidence : Rat
  hasNulls : Bool
  maxLength : Nat
deriving DecidableEq, Repr

/-- Translation of `determineStringType`: email-shaped override (tested on
the untrimmed value), then length buckets. -/
def determineStringType (values : List String) (maxLength : Nat) : String :=
  if values.any (fun v => matchEmail v.data) then "VARCHAR(255)"
  else if maxLength > 500 then "TEXT"
  else if maxLength > 255 then "VARCHAR(500)"
  else "VARCHAR(255)"

/-- Translation of `analyzeField` on a column of cell strings.  An
all-empty column short-circuits to the unknown string mapping with the
literal `maxLength: 0` of the JS early return. -/
def analyzeField (values : List String) : FieldAnalysis :=
  let nonEmpty := values.filter (· ≠ "")
  let hasNulls := nonEmpty.length < values.length
  if nonEmpty.isEmpty then
    { jsType := "string", sqlType := "VARCHAR(255)", confidence := 0, hasNulls := true, maxLength := 0 }
  else
    let maxLength :=
      match nonEmpty.map String.length with
      | [] => 0
      | x :: xs => xs.foldl max x
    match analyzeLoop nonEmpty typeChecks with
    | some (t, conf) =>
      { jsType := t, sqlType := sqlTypeFor t, confidence := conf, hasNulls := hasNulls, maxLength := maxLength }
    | none =>
      { jsType := "string", sqlType := determineStringType nonEmpty maxLength, confidence := 1,
        hasNulls := hasNulls, maxLength := maxLength }

end FieldMapper

/-- Coercion of a JS value to a display string (`String(value)` /
`value.toString()`), restricted to the modelled value universe. -/
def jsToString (v : JSVal) : String :=
  match v with
  | .str s => s
  | .num n => toString n
  | .bool b => if b then "true" else "false"
  | .null => "null"
  | .undef => "undefined"

/-- Behaviour of `stringValue.replace(/'/g, "''")`: every single quote is
doubled. -/
def escapeSingleQuotes (s : String) : String :=
  String.mk (s.data.foldr (fun c acc => if c = sqChar then sqChar :: sqChar :: acc else c :: acc) [])

/-- Behaviour of `key.replace(tag, ...)` with a plain-string pattern:
only the first occurrence of the pattern is removed. -/
def replaceFirstOcc (pat : List Char) : List Char → List Char
  | [] => []
  | c :: rest =>
    if pat.isPrefixOf (c :: rest) then (c :: rest).drop pat.length
    else c :: replaceFirstOcc pat rest

namespace SQLGenerator

/-- Constant `this.defaultBatchSize` of `SQLGenerator`. -/
def defaultBatchSize : Int := 500

/-- Constant `this.supportedDatabases`. -/
def supportedDatabases : List String := ["mysql", "postgresql", "sqlite", "sqlserver"]

/-- One entry of `this.syntaxMap`: per-dialect syntax data. -/
structure SyntaxDescriptor where
  quoteChar : String
  quoteCharEnd : Option String := none
  stringQuote : String
  booleanTrue : String
  booleanFalse : String
  autoIncrement : String
  createTable : String
  insertIgnore : String
  onDuplicateKey : Option String := none
  onConflict : Option String := none
deriving DecidableEq, Repr

/-- Translation of `this.syntaxMap`, keyed by the lower-cased dialect
name. -/
def syntaxMap (databaseType : String) : Option SyntaxDescriptor :=
  match databaseType with
  | "mysql" => some {
      quoteChar := "`", stringQuote := sqStr,
      booleanTrue := "TRUE", booleanFalse := "FALSE",
      autoIncrement := "AUTO_INCREMENT",
      createTable := "CREATE TABLE IF NOT EXISTS",
      insertIgnore := "INSERT IGNORE INTO",
      onDuplicateKey := some "ON DUPLICATE KEY UPDATE" }
  | "postgresql" => some {
      quoteChar := "\x22", stringQuote := sqStr,
      booleanTrue := "TRUE", booleanFalse := "FALSE",
      autoIncrement := "SERIAL",
      createTable := "CREATE TABLE IF NOT EXISTS",
      insertIgnore := "INSERT INTO",
      onConflict := some "ON CONFLICT DO NOTHING" }
  | "sqlite" => some {
      quoteChar := "\x22", stringQuote := sqStr,
      booleanTrue := "1", booleanFalse := "0",
      autoIncrement := "INTEGER PRIMARY KEY AUTOINCREMENT",
      createTable := "CREATE TABLE IF NOT EXISTS",
      insertIgnore := "INSERT OR IGNORE INTO" }
  | "sqlserver" => some {
      quoteChar := "[", quoteCharEnd := some "]", stringQuote := sqStr,
      booleanTrue := "1", booleanFalse := "0",
      autoIncrement := "IDENTITY(1,1)",
      createTable := "CREATE TABLE",
      insertIgnore := "INSERT INTO" }
  | _ => none

/-- Per-column mapping as the generator consumes it. -/
structure FieldMapping where
  sqlFieldName : String
  sqlType : String
  jsType : String
  nullable : Bool := true
deriving DecidableEq, Repr

/-- One data row as `popup.js` hands it to the generator: an object keyed
by the original header names, in insertion order. -/
abbrev GenRow := List (String × JSVal)

/-- Container mirroring the `csvData` argument (only `rows` is read). -/
structure CsvData where
  rows : List GenRow
deriving DecidableEq, Repr

/-- Options record of `generateSQL`.  The JS reads `includeTransaction`
and `includeComments` with a `!== false` test (absent means on) and
`includeCreateTable` with a truthiness test (absent means off). -/
structure GenOptions where
  batchSize : JSVal := .undef
  includeTransaction : Bool := true
  includeComments : Bool := true
  includeCreateTable : Bool := false
  insertMode : String := ""
deriving DecidableEq, Repr

/-- Configuration record of `generateSQL`. -/
structure GenConfig where
  operation : String
  databaseName : String
  tableName : String
  databaseType : String
  fieldMappings : List (String × FieldMapping)
  csvData : CsvData
  options : GenOptions := {}
deriving DecidableEq, Repr

/-- Translation of `parseInt` on the modelled values: leading-integer
parse of the trimmed string form, `none` for NaN. -/
def parseIntJS (v : JSVal) : Option Int :=
  match v with
  | .num n => some n
  | .str s =>
    let t := trimList s.data
    let signed : Bool × List Char :=
      match t with
      | c :: r =>
        if c = Char.ofNat 45 then (true, r)
        else if c = Char.ofNat 43 then (false, r) else (false, t)
      | [] => (false, [])
    let ds := signed.2.takeWhile (·.isDigit)
    if ds.isEmpty then none
    else
      let n : Nat := ds.foldl (fun acc c => acc * 10 + (c.toNat - 48)) 0
      some (if signed.1 then -(n : Int) else (n : Int))
  | _ => none

/-- Effective batch size `parseInt(options.batchSize) || this.defaultBatchSize`:
NaN (for example the string value `all`) and 0 both fall back to 500. -/
def effectiveBatchSize (v : JSVal) : Int :=
  match parseIntJS v with
  | some n => if n = 0 then defaultBatchSize else n
  | none => defaultBatchSize

/-- Fuel-driven batch slicing: with fuel at least the list length and a
positive batch width, one batch of `b` elements is split off per step. -/
def chunkFuel (b : Nat) : Nat → List α → List (List α)
  | _, [] => []
  | 0, _ :: _ => []
  | fuel + 1, x :: xs => (x :: xs).take b :: chunkFuel b fuel ((x :: xs).drop b)

/-- Batch partition performed by the `for (i += batchSize)` loop of
`generateInsertSQL` (each batch is `rows.slice(i, i + batchSize)`).  The
JS loop does not terminate when the batch size is not positive and rows
exist; that never-exercised case is modelled by an empty batch list.  A
positive batch size consumes at least one row per step, so the list
length is enough fuel. -/
def chunkList (b : Nat) (l : List α) : List (List α) :=
  if b = 0 then [] else chunkFuel b l.length l

/-- Translation of `quoteIdentifier`: close quote falls back to the open
quote when the dialect has no distinct one. -/
def quoteIdentifier (id : String) (syn : SyntaxDescriptor) : String :=
  syn.quoteChar ++ id ++ (syn.quoteCharEnd.getD syn.quoteChar)

/-- Property lookup `row[field]` on an object row: `undefined` when the
key is absent. -/
def getField (row : GenRow) (k : String) : JSVal :=
  (row.lookup k).getD JSVal.undef

/-- Translation of `formatValue`: null, undefined and the empty string
all map to the literal `NULL` before the type switch runs. -/
def formatValue (v : JSVal) (m : FieldMapping) (syn : SyntaxDescriptor) : String :=
  if v = .null ∨ v = .undef ∨ v = .str "" then "NULL"
  else
    let stringValue := String.mk (trimList (jsToString v).data)
    match m.jsType with
    | "integer" => stringValue
    | "decimal" => stringValue
    | "boolean" =>
      if ["true", "1", "yes", "y"].contains (jsToLower stringValue) then syn.booleanTrue
      else syn.booleanFalse
    | _ => syn.stringQuote ++ escapeSingleQuotes stringValue ++ syn.stringQuote

/-- Translation of `generateCreateTableSQL`. -/
def generateCreateTableSQL (tableName : String) (fms : List (String × FieldMapping))
    (syn : SyntaxDescriptor) : String :=
  syn.createTable ++ " " ++ quoteIdentifier tableName syn ++ " (\n" ++
    String.intercalate ",\n" (fms.map (fun p =>
      "  " ++ quoteIdentifier p.2.sqlFieldName syn ++ " " ++ p.2.sqlType ++
        (if p.2.nullable then "" else " NOT NULL"))) ++
    "\n);"

/-- Translation of `generateOnDuplicateKeyUpdate`. -/
def generateOnDuplicateKeyUpdate (fms : List (String × FieldMapping))
    (syn : SyntaxDescriptor) : String :=
  "ON DUPLICATE KEY UPDATE\n  " ++
    String.intercalate ",\n  " (fms.map (fun p =>
      let q := quoteIdentifier p.2.sqlFieldName syn
      q ++ " = VALUES(" ++ q ++ ")"))

/-- Accumulator of the INSERT/UPDATE statement builders: the emitted SQL
plus the record and batch counters. -/
structure StatementsResult where
  sql : String := ""
  recordCount : Nat := 0
  batchCount : Nat := 0
deriving DecidableEq, Repr

/-- Loop body of the batch loop of `generateInsertSQL`: appends one
multi-row INSERT statement and advances the record counter once per
emitted value row and the batch counter once per batch. -/
def insertBatchStep (c : GenConfig) (syn : SyntaxDescriptor)
    (acc : StatementsResult) (batch : List GenRow) : StatementsResult :=
  let quotedFields := c.fieldMappings.map (fun p => quoteIdentifier p.2.sqlFieldName syn)
  let insertType := if c.options.insertMode = "ignore" then syn.insertIgnore else "INSERT INTO"
  let valueRows := batch.map (fun row =>
    "  (" ++ String.intercalate ", "
      (c.fieldMappings.map (fun p => formatValue (getField row p.1) p.2 syn)) ++ ")")
  let stmt := insertType ++ " " ++ quoteIdentifier c.tableName syn ++ "\n  (" ++
    String.intercalate ", " quotedFields ++ ")\nVALUES\n" ++
    String.intercalate ",\n" valueRows ++
    (if syn.onDuplicateKey.isSome ∧ c.options.insertMode = "update" then
      "\n" ++ generateOnDuplicateKeyUpdate c.fieldMappings syn
    else "") ++
    (match syn.onConflict with
     | some oc => if c.options.insertMode = "ignore" then "\n" ++ oc else ""
     | none => "")
  { sql := acc.sql ++ stmt ++ ";\n\n"
    recordCount := acc.recordCount + batch.length
    batchCount := acc.batchCount + 1 }

/-- Translation of `generateInsertSQL`: optional CREATE TABLE, then one
multi-row INSERT per batch of the partitioned rows. -/
def generateInsertSQL (c : GenConfig) (syn : SyntaxDescriptor) : StatementsResult :=
  let b := effectiveBatchSize c.options.batchSize
  let createPart :=
    if c.options.includeCreateTable then
      generateCreateTableSQL c.tableName c.fieldMappings syn ++ "\n\n"
    else ""
  (chunkList b.toNat c.csvData.rows).foldl (insertBatchStep c syn) { sql := createPart }

/-- Strict-inequality presence test of `generateUpdateSQL` on a cell
value: not null, not undefined, not the empty string. -/
def valuePresent (v : JSVal) : Bool :=
  !(v = .null) && !(v = .undef) && !(v = .str "")

/-- Numeric-literal shape accepted by `Number(string)` (and hence by the
`!isNaN(value)` test of `quoteValue`): optional sign, decimal digits with
optional fraction, optional exponent.  Exotic forms (hex, `Infinity`) are
outside the inputs this program feeds in. -/
def isNumericLiteral (l : List Char) : Bool :=
  let unsigned :=
    match l with
    | c :: r => if c = Char.ofNat 45 ∨ c = Char.ofNat 43 then r else l
    | [] => l
  let ip := unsigned.takeWhile (·.isDigit)
  let afterInt := unsigned.dropWhile (·.isDigit)
  let mantissaOk : Bool × List Char :=
    match afterInt with
    | c :: r =>
      if c = Char.ofNat 46 then
        (!ip.isEmpty || !(r.takeWhile (·.isDigit)).isEmpty, r.dropWhile (·.isDigit))
      else (!ip.isEmpty, afterInt)
    | [] => (!ip.isEmpty, afterInt)
  mantissaOk.1 &&
    (match mantissaOk.2 with
     | [] => true
     | c :: r =>
       (c = Char.ofNat 101 ∨ c = Char.ofNat 69) &&
         (let r2 :=
           match r with
           | c2 :: rr => if c2 = Char.ofNat 45 ∨ c2 = Char.ofNat 43 then rr else r
           | [] => r
          !r2.isEmpty && r2.all (·.isDigit)))

/-- Behaviour of `isNaN(value)` (ToNumber coercion then NaN test) on the
modelled values: the empty and blank strings coerce to 0, null to 0,
booleans to 0/1, undefined to NaN. -/
def jsIsNaN (v : JSVal) : Bool :=
  match v with
  | .num _ => false
  | .bool _ => false
  | .null => false
  | .undef => true
  | .str s =>
    let t := trimList s.data
    !(t.isEmpty || isNumericLiteral t)

/-- Translation of `quoteValue`.  The JS `switch (syntax)` compares the
syntax descriptor object against dialect-name strings, so no case ever
matches and the default branch (doubling of single quotes) is the only
reachable one; the dialect parameter is therefore dropped here. -/
def quoteValue (v : JSVal) : String :=
  match v with
  | .null => "NULL"
  | .undef => "NULL"
  | _ =>
    if (match v with | .num _ => true | _ => false) || !(jsIsNaN v) then jsToString v
    else sqStr ++ escapeSingleQuotes (jsToString v) ++ sqStr

/-- WHERE-fragment list of one UPDATE row: `[WHERE]`-suffixed keys with a
present value, in key order; the tag is removed by a first-occurrence
replace. -/
def rowWhereFragments (row : GenRow) (syn : SyntaxDescriptor) : List String :=
  row.filterMap (fun p =>
    if ("[WHERE]".data).isSuffixOf p.1.data ∧ valuePresent p.2 then
      some (quoteIdentifier (String.mk (replaceFirstOcc ("[WHERE]".data) p.1.data)) syn ++
        " = " ++ quoteValue p.2)
    else none)

/-- SET-fragment list of one UPDATE row: `[SET]`-suffixed keys (that are
not `[WHERE]`-suffixed, matching the else-if) with a present value. -/
def rowSetFragments (row : GenRow) (syn : SyntaxDescriptor) : List String :=
  row.filterMap (fun p =>
    if ¬ ("[WHERE]".data).isSuffixOf p.1.data ∧ ("[SET]".data).isSuffixOf p.1.data ∧
        valuePresent p.2 then
      some (quoteIdentifier (String.mk (replaceFirstOcc ("[SET]".data) p.1.data)) syn ++
        " = " ++ quoteValue p.2)
    else none)

/-- Row loop of `generateUpdateSQL`: the first row with no WHERE fragment
or no SET fragment throws, discarding everything accumulated so far. -/
def updateLoop (tableName : String) (syn : SyntaxDescriptor) :
    List GenRow → String → Nat → Except String (String × Nat)
  | [], sql, count => .ok (sql, count)
  | row :: rest, sql, count =>
    let wf := rowWhereFragments row syn
    let sf := rowSetFragments row syn
    if wf.isEmpty then
      .error "UPDATE mode requires at least one WHERE condition field (column name with [WHERE] suffix)"
    else if sf.isEmpty then
      .error "UPDATE mode requires at least one SET field (column name with [SET] suffix)"
    else
      updateLoop tableName syn rest
        (sql ++ "UPDATE " ++ quoteIdentifier tableName syn ++ "\n" ++
          "SET " ++ String.intercalate ", " sf ++ "\n" ++
          "WHERE " ++ String.intercalate " AND " wf ++ ";\n\n")
        (count + 1)

/-- Translation of `generateUpdateSQL` (the batch counter starts at 1). -/
def generateUpdateSQL (c : GenConfig) (syn : SyntaxDescriptor) :
    Except String StatementsResult :=
  (updateLoop c.tableName syn c.csvData.rows "" 0).map (fun p =>
    { sql := p.1, recordCount := p.2, batchCount := 1 })

end SQLGenerator

namespace SQLGenerator

/-- Metadata block of a generation result.  The `generatedAt` wall-clock
stamp (`new Date().toISOString()`) is modelled by a fixed string, since
nothing downstream depends on it. -/
structure GenMetadata where
  operation : String
  databaseType : String
  tableName : String
  recordCount : Nat
  batchCount : Nat
  generatedAt : String
deriving DecidableEq, Repr

/-- Result record of `generateSQL`. -/
structure GenerationResult where
  sql : String
  metadata : GenMetadata
  success : Bool
deriving DecidableEq, Repr

/-- Placeholder for the wall-clock timestamp. -/
def generatedAtStamp : String := "GENERATED_AT"

/-- Translation of `validateConfig`.  The truthiness test `!config[f]`
fails on the empty string for the four string fields; `fieldMappings` and
`csvData` are objects and hence always truthy in the modelled universe,
and `csvData.rows` is always an array here. -/
def validateConfig (c : GenConfig) : Except String Unit :=
  if c.operation = "" then .error "Missing required configuration: operation"
  else if c.databaseName = "" then .error "Missing required configuration: databaseName"
  else if c.tableName = "" then .error "Missing required configuration: tableName"
  else if c.databaseType = "" then .error "Missing required configuration: databaseType"
  else if ¬ supportedDatabases.contains (jsToLower c.databaseType) then
    .error ("Unsupported database type: " ++ c.databaseType)
  else if ¬ ["INSERT", "UPDATE"].contains (jsToUpper c.operation) then
    .error ("Unsupported operation: " ++ c.operation)
  else .ok ()

/-- Translation of `getTransactionStart`. -/
def getTransactionStart (databaseType : String) : String :=
  match jsToLower databaseType with
  | "mysql" => "START TRANSACTION;\n\n"
  | "postgresql" => "BEGIN;\n\n"
  | "sqlite" => "BEGIN TRANSACTION;\n\n"
  | "sqlserver" => "BEGIN TRANSACTION;\n\n"
  | _ => "BEGIN;\n\n"

/-- Translation of `getTransactionEnd`. -/
def getTransactionEnd : String := "\nCOMMIT;\n"

/-- Translation of `generateHeader`. -/
def generateHeader (c : GenConfig) (m : GenMetadata) : String :=
  "-- =====================================================\n" ++
  "-- Enhanced Import SQL Generator\n" ++
  "-- Generated: " ++ m.generatedAt ++ "\n" ++
  "-- =====================================================\n" ++
  "-- Operation: " ++ c.operation ++ "\n" ++
  "-- Database: " ++ c.databaseName ++ "\n" ++
  "-- Table: " ++ c.tableName ++ "\n" ++
  "-- Database Type: " ++ c.databaseType ++ "\n" ++
  "-- =====================================================\n\n"

/-- Translation of `generateFooter`. -/
def generateFooter (m : GenMetadata) : String :=
  "\n-- =====================================================\n" ++
  "-- Summary:\n" ++
  "-- Records processed: " ++ toString m.recordCount ++ "\n" ++
  "-- Batches generated: " ++ toString m.batchCount ++ "\n" ++
  "-- Completed: " ++ generatedAtStamp ++ "\n" ++
  "-- =====================================================\n"

/-- Translation of `generateSQL`.  Every JS `throw` becomes an error
result: the catch block appends a rollback statement to a local string
and rethrows, so no SQL text ever reaches the caller on failure. -/
def generateSQL (c : GenConfig) : Except String GenerationResult :=
  match validateConfig c with
  | .error e => .error e
  | .ok _ =>
    match syntaxMap (jsToLower c.databaseType) with
    | none => .error ("Unsupported database type: " ++ c.databaseType)
    | some syn =>
      let meta0 : GenMetadata := {
        operation := c.operation, databaseType := c.databaseType,
        tableName := c.tableName, recordCount := 0, batchCount := 0,
        generatedAt := generatedAtStamp }
      let pre :=
        (if c.options.includeComments then generateHeader c meta0 else "") ++
        (if c.options.includeTransaction then getTransactionStart c.databaseType else "")
      let body : Except String StatementsResult :=
        if c.operation = "INSERT" then .ok (generateInsertSQL c syn)
        else if c.operation = "UPDATE" then generateUpdateSQL c syn
        else .ok {}
      match body with
      | .error e => .error ("SQL generation failed: " ++ e)
      | .ok r =>
        let meta := { meta0 with recordCount := r.recordCount, batchCount := r.batchCount }
        let sqlScript := pre ++ r.sql ++
          (if c.options.includeTransaction then getTransactionEnd else "") ++
          (if c.options.includeComments then generateFooter meta else "")
        .ok { sql := sqlScript, metadata := meta, success := true }

end SQLGenerator

namespace UpdateOperationHandler

/-- One SET-clause entry (`this.setFields` element). -/
structure SetField where
  name : String
  value : JSVal
  dataType : String := "string"
deriving DecidableEq, Repr

/-- One WHERE-clause entry (`this.whereConditions` element). -/
structure WhereCondition where
  fieldName : String
  operator : String
  value : JSVal
  dataType : String := "string"
  logicalOperator : String := "AND"
deriving DecidableEq, Repr

/-- Mutable state of an `UpdateOperationHandler` instance at the moment
`validate`/`generateSQL` is called. -/
structure HandlerState where
  tableName : String := ""
  setFields : List SetField := []
  whereConditions : List WhereCondition := []
deriving DecidableEq, Repr

/-- Message pushed by `validate` when no WHERE condition is present.  It
is worded as a recommendation but stored in `validationErrors`. -/
def whereRecommendationMsg : String :=
  "WHERE conditions are strongly recommended to prevent updating all rows"

/-- List `this.validationErrors` as `validate()` leaves it: table-name,
SET-presence and WHERE-presence checks, then per-entry checks, in push
order. -/
def computeValidationErrors (s : HandlerState) : List String :=
  (if s.tableName = "" then ["Table name is required"] else []) ++
  (if s.setFields.isEmpty then ["At least one SET field is required for UPDATE operation"] else []) ++
  (if s.whereConditions.isEmpty then [whereRecommendationMsg] else []) ++
  (s.setFields.enum.map (fun p =>
    (if p.2.name = "" then ["SET field at index " ++ toString p.1 ++ " is missing a name"] else []) ++
    (if p.2.value = .undef then ["SET field " ++ sqStr ++ p.2.name ++ sqStr ++ " is missing a value"] else []))).flatten ++
  (s.whereConditions.enum.map (fun p =>
    (if p.2.fieldName = "" then ["WHERE condition at index " ++ toString p.1 ++ " is missing a field name"] else []) ++
    (if ¬ (p.2.operator = "IS NULL" ∨ p.2.operator = "IS NOT NULL") ∧ p.2.value = .undef then
      ["WHERE condition " ++ sqStr ++ p.2.fieldName ++ sqStr ++ " is missing a value"]
    else []))).flatten

/-- Translation of `validate()`: true exactly when `validationErrors`
stays empty. -/
def validate (s : HandlerState) : Bool :=
  (computeValidationErrors s).isEmpty

/-- Truthiness of a modelled JS value (`value ? ... : ...`). -/
def jsTruthy (v : JSVal) : Bool :=
  match v with
  | .null => false
  | .undef => false
  | .str s => !(s = "")
  | .num n => !(n = 0)
  | .bool b => b

/-- Translation of `formatValueForSQL` (dialect-agnostic by design). -/
def formatValueForSQL (v : JSVal) (dataType : String) : String :=
  if v = .null ∨ v = .undef then "NULL"
  else
    match jsToLower dataType with
    | "string" | "text" | "varchar" => sqStr ++ escapeSingleQuotes (jsToString v) ++ sqStr
    | "number" | "integer" | "int" | "float" | "decimal" => jsToString v
    | "boolean" | "bool" => if jsTruthy v then "TRUE" else "FALSE"
    | "null" => "NULL"
    | _ => sqStr ++ escapeSingleQuotes (jsToString v) ++ sqStr

/-- Translation of `generateSetClause`. -/
def generateSetClause (s : HandlerState) : String :=
  String.intercalate ", " (s.setFields.map (fun f =>
    f.name ++ " = " ++ formatValueForSQL f.value f.dataType))

/-- Translation of `generateWhereClause`.  Array values (for `IN`/`NOT
IN`) lie outside the modelled value universe, so the `Array.isArray`
test is always false here and the documented silent fallback to an
equality comparison is the rendered form. -/
def generateWhereClause (s : HandlerState) : String :=
  (s.whereConditions.enum.map (fun p =>
    (if p.1 > 0 then " " ++ p.2.logicalOperator ++ " " else "") ++
    (if p.2.operator = "IS NULL" ∨ p.2.operator = "IS NOT NULL" then
      p.2.fieldName ++ " " ++ p.2.operator
    else if p.2.operator = "IN" ∨ p.2.operator = "NOT IN" then
      p.2.fieldName ++ " = " ++ formatValueForSQL p.2.value p.2.dataType
    else
      p.2.fieldName ++ " " ++ p.2.operator ++ " " ++
        formatValueForSQL p.2.value p.2.dataType))).foldl (· ++ ·) ""

/-- Translation of `generateSQL` of `UpdateOperationHandler`: throws when
`validate()` is false, otherwise renders the UPDATE statement, with the
WHERE part omitted when its clause text is empty. -/
def generateSQL (s : HandlerState) : Except String String :=
  if !(validate s) then
    .error ("Validation failed: " ++ String.intercalate ", " (computeValidationErrors s))
  else
    let setClause := generateSetClause s
    let whereClause := generateWhereClause s
    .ok ("UPDATE " ++ s.tableName ++ " SET " ++ setClause ++
      (if ¬ whereClause = "" then " WHERE " ++ whereClause else "") ++ ";")

end UpdateOperationHandler

/-- Substring test on character lists (`String.prototype.includes`). -/
def hasSubstring (l sub : List Char) : Bool :=
  match l with
  | [] => sub.isEmpty
  | _ :: t => sub.isPrefixOf l || hasSubstring t sub

/-- Substring test on strings. -/
def strContains (s sub : String) : Bool :=
  hasSubstring s.data sub.data

namespace CSVParser

/-- Boolean form of the row-length invariant claimed for parsed tables:
every row exactly as long as the header list. -/
def rowsMatchHeaderLen (t : RawTable) : Bool :=
  t.rows.all (fun r => r.length = t.headers.length)

end CSVParser

namespace SQLGenerator

/-- Presence of a usable WHERE marker in one UPDATE row: some key with
the `[WHERE]` suffix holding a non-null, non-undefined, non-empty value. -/
def rowHasWhereField (row : GenRow) : Bool :=
  row.any (fun p => decide (("[WHERE]".data).isSuffixOf p.1.data ∧ valuePresent p.2 = true))

/-- Presence of a usable SET marker in one UPDATE row (keys with the
`[WHERE]` suffix are claimed by the WHERE branch of the else-if first). -/
def rowHasSetField (row : GenRow) : Bool :=
  row.any (fun p =>
    decide (¬ ("[WHERE]".data).isSuffixOf p.1.data ∧ ("[SET]".data).isSuffixOf p.1.data ∧
      valuePresent p.2 = true))

end SQLGenerator

section ConcreteInstances

open SQLGenerator UpdateOperationHandler CSVParser

/-- End-to-end INSERT configuration of the spec example: one row with
`id` 1 and `name` holding an internal single quote, dialect mysql,
table `users`. -/
def endToEndConfig : GenConfig := {
  operation := "INSERT", databaseName := "mydb", tableName := "users",
  databaseType := "mysql",
  fieldMappings := [
    ("id", { sqlFieldName := "id", sqlType := "INT", jsType := "integer", nullable := false }),
    ("name", { sqlFieldName := "name", sqlType := "VARCHAR(255)", jsType := "string" })],
  csvData := { rows := [[("id", .num 1), ("name", .str ("O" ++ sqStr ++ "Brien"))]] } }

/-- Expected quoted rendering of the example name value. -/
def obrienQuoted : String :=
  "(1, " ++ sqStr ++ "O" ++ sqStr ++ sqStr ++ "Brien" ++ sqStr ++ ")"

/-- UPDATE configuration whose single row carries a SET marker but no
WHERE marker. -/
def updNoWhereConfig : GenConfig := {
  operation := "UPDATE", databaseName := "mydb", tableName := "users",
  databaseType := "mysql", fieldMappings := [],
  csvData := { rows := [[("name[SET]", .str "x")]] } }

/-- INSERT configuration with 501 rows and the batch-size option string
`all`. -/
def batchAllConfig : GenConfig := {
  operation := "INSERT", databaseName := "mydb", tableName := "t",
  databaseType := "mysql",
  fieldMappings := [("id", { sqlFieldName := "id", sqlType := "INT", jsType := "integer" })],
  csvData := { rows := List.replicate 501 [] },
  options := { batchSize := .str "all", includeComments := false, includeTransaction := false } }

/-- INSERT configuration with 5 rows and numeric batch size 2. -/
def batchTwoConfig : GenConfig := {
  operation := "INSERT", databaseName := "mydb", tableName := "t",
  databaseType := "mysql",
  fieldMappings := [("id", { sqlFieldName := "id", sqlType := "INT", jsType := "integer" })],
  csvData := { rows := List.replicate 5 [] },
  options := { batchSize := .num 2 } }

/-- Handler state with a table name and one SET field but no WHERE
condition. -/
def noWhereState : HandlerState := {
  tableName := "users",
  setFields := [{ name := "status", value := .str "active", dataType := "string" }],
  whereConditions := [] }

/-- Input text whose data row is one field longer than its header row. -/
def longRowInput : List Char := ("a,b\n1,2,3").data

/-- Exact table `parseCSVText` produces for `longRowInput` under the
default options. -/
def longRowTable : RawTable := {
  headers := [[Char.ofNat 97], [Char.ofNat 98]],
  rows := [[[Char.ofNat 49], [Char.ofNat 50], [Char.ofNat 51]]],
  totalRows := 1, columns := 2, delimiter := Char.ofNat 44, encoding := "UTF-8",
  metadata := { originalLineCount := 2, processedRows := 1, skippedRows := 0,
                hasHeader := true, maxColumnCount := JSNum.val 3 } }

/-- Input text consisting of exactly one header line and no data rows. -/
def headerOnlyInput : List Char := ("a,b").data

/-- Length of the oversized-input filler. -/
def bigN : Nat := 10 * 1024 * 1024

/-- Concrete input text whose UTF-8 byte size exceeds the 10MB ceiling:
a two-field header line followed by one huge single-field data row. -/
def oversizedInput : List Char :=
  Char.ofNat 97 :: Char.ofNat 44 :: Char.ofNat 98 :: Char.ofNat 10 :: List.replicate bigN (Char.ofNat 99)

end ConcreteInstances

/-! ## Theorems -/

/-- C8: for the configuration of one row with id 1 and a name holding an
internal single quote, dialect mysql, operation INSERT, table `users`,
`generateSQL` succeeds and the SQL text contains `INSERT INTO`
referencing `users` and a values clause rendering the name as
`(1, 'O''Brien')` with the internal quote doubled. -/
theorem c8_end_to_end_insert_escaping :
    (SQLGenerator.generateSQL endToEndConfig).map (fun r =>
      strContains r.sql ("INSERT INTO `users`") &&
      strContains r.sql obrienQuoted && r.success) = .ok true := by
  rfl

/-- C9: in the INSERT value formatting of the Generator, each of null,
undefined and the empty string renders as the literal `NULL`, for every
field mapping (any `jsType`, any `nullable` flag) and every dialect. -/
theorem c9_empty_values_format_null (m : SQLGenerator.FieldMapping)
    (syn : SQLGenerator.SyntaxDescriptor) :
    SQLGenerator.formatValue .null m syn = "NULL" ∧
    SQLGenerator.formatValue .undef m syn = "NULL" ∧
    SQLGenerator.formatValue (.str "") m syn = "NULL" := by
  exact ⟨rfl, rfl, rfl⟩

/-- C3 (failing-input evaluation): with the batch-size option string
`all` over 501 rows, `generateSQL` emits 2 batches, not the single batch
the claim requires; `parseInt` turns `all` into NaN and the code falls
back to the default batch size 500. -/
theorem c3_batch_all_not_single_batch :
    (SQLGenerator.generateSQL batchAllConfig).map (fun r =>
      (r.metadata.recordCount, r.metadata.batchCount)) = .ok (501, 2) := by
  rfl

/-- C4 (counterexample): for the state with table `users`, one SET field
and zero WHERE conditions, `validate()` returns false — the missing-WHERE
message is stored in `validationErrors`, not as a warning — and
`generateSQL()` throws instead of proceeding. -/
theorem c4_counterexample :
    UpdateOperationHandler.validate noWhereState = false ∧
    UpdateOperationHandler.generateSQL noWhereState =
      .error ("Validation failed: " ++ UpdateOperationHandler.whereRecommendationMsg) := by
  exact ⟨rfl, rfl⟩

/-- C5 (counterexample): parsing the text `a,b` over `1,2,3` yields a row
of length 3 against a header of length 2 — rows longer than the header
are not truncated, refuting the claimed row-length equality. -/
theorem c5_counterexample :
    (CSVParser.parseCSVText longRowInput {}).map CSVParser.rowsMatchHeaderLen = .ok false := by
  rfl

/-- Tokenizing a line always yields at least one field: the JS loop ends
by pushing the current field unconditionally. -/
theorem parseLineAux_ne_nil (delim : Char) (tv : Bool) (l cur : List Char) (q : Bool) (qc : Char) :
    CSVParser.parseLineAux delim tv l cur q qc ≠ [] := by
  induction l, cur, q, qc using CSVParser.parseLineAux.induct delim tv <;>
    (simp only [CSVParser.parseLineAux]) <;> (try split) <;> simp_all

/-- Specialization of `parseLineAux_ne_nil` to `parseCSVLine`. -/
theorem parseCSVLine_ne_nil (line : List Char) (d : Char) (tv : Bool) :
    CSVParser.parseCSVLine line d tv ≠ [] :=
  parseLineAux_ne_nil d tv line [] false (Char.ofNat 34)

/-- Every row kept by the row loop has been padded to at least the
header length. -/
theorem parseRowsAux_min_length (d : Char) (tv se : Bool) (hl : Nat) :
    ∀ (lines : List (List Char)) (count : Nat) (r : List (List Char)),
      r ∈ CSVParser.parseRowsAux d tv se hl lines count → hl ≤ r.length := by
  intro lines
  induction lines with
  | nil => intro count r hr; simp [CSVParser.parseRowsAux] at hr
  | cons line rest ih =>
    intro count r hr
    simp only [CSVParser.parseRowsAux] at hr
    split at hr
    · simp at hr
    · split at hr
      · exact ih count r hr
      · rcases List.mem_cons.mp hr with h1 | h1
        · subst h1
          simp [CSVParser.padRow]
          omega
        · exact ih (count + 1) r h1

/-- Row-length lower bound stated on the constructed table record. -/
theorem mkRawTable_rows_min_length (opts : CSVParser.Options) (delim : Char)
    (headers : List (List Char)) (n : Nat) (dataLines : List (List Char)) :
    ∀ r ∈ (CSVParser.mkRawTable opts delim headers n dataLines).rows,
      (CSVParser.mkRawTable opts delim headers n dataLines).headers.length ≤ r.length := by
  intro r hr
  exact parseRowsAux_min_length _ _ _ _ _ _ r hr

/-- C5 (amended): in every table returned by `parseCSVText`, every row is
at least as long as the header list — rows shorter than the header are
padded with empty strings, while longer rows keep their excess fields
and are not truncated. -/
theorem c5_row_length_at_least_header (text : List Char) (opts : CSVParser.Options)
    (t : CSVParser.RawTable) (h : CSVParser.parseCSVText text opts = .ok t) :
    ∀ r ∈ t.rows, t.headers.length ≤ r.length := by
  simp only [CSVParser.parseCSVText] at h
  split at h
  · cases h
  · split at h
    · cases h
    · set hs := (if opts.hasHeader = true then
          CSVParser.parseCSVLine _ (opts.delimiter.getD (CSVParser.detectDelimiter _)) opts.trimValues
        else CSVParser.defaultHeaders
          (CSVParser.parseCSVLine _ (opts.delimiter.getD (CSVParser.detectDelimiter _)) opts.trimValues).length)
        with hhs
      split at h
      · cases h
      · rw [Except.ok.injEq] at h
        subst h
        exact mkRawTable_rows_min_length _ _ _ _ _

/-- C5 (witness): the amended bound evaluated on the `a,b` over `1,2,3`
input, whose only row has length 3 against header length 2. -/
theorem c5_witness :
    CSVParser.parseCSVText longRowInput {} = .ok longRowTable ∧
    (∀ r ∈ longRowTable.rows, longRowTable.headers.length ≤ r.length) := by
  exact ⟨by rfl, c5_row_length_at_least_header longRowInput {} longRowTable (by rfl)⟩

/-- C4 (amended): whenever the handler state has no WHERE condition —
whatever its table name and SET fields — `validate()` returns false,
because the missing-WHERE message lands in `validationErrors`, and
`generateSQL()` therefore throws instead of rendering. -/
theorem c4_missing_where_fails_validation (s : UpdateOperationHandler.HandlerState)
    (h : s.whereConditions = []) :
    UpdateOperationHandler.validate s = false ∧
    ∃ e, UpdateOperationHandler.generateSQL s = .error e := by
  have hlen : 0 < (UpdateOperationHandler.computeValidationErrors s).length := by
    simp only [UpdateOperationHandler.computeValidationErrors, h, List.isEmpty_nil, if_true,
      List.enum_nil, List.map_nil, List.flatten_nil, List.length_append, List.length_singleton]
    omega
  have hval : UpdateOperationHandler.validate s = false := by
    cases hc : UpdateOperationHandler.computeValidationErrors s with
    | nil => rw [hc] at hlen; simp at hlen
    | cons a tl => simp [UpdateOperationHandler.validate, hc]
  have herr : UpdateOperationHandler.generateSQL s =
      .error ("Validation failed: " ++
        String.intercalate ", " (UpdateOperationHandler.computeValidationErrors s)) := by
    simp [UpdateOperationHandler.generateSQL, hval]
  exact ⟨hval, _, herr⟩

/-- C4 (witness): the amended statement applied to the concrete state
with table `users`, one SET field and no WHERE condition. -/
theorem c4_witness :
    UpdateOperationHandler.validate noWhereState = false ∧
    ∃ e, UpdateOperationHandler.generateSQL noWhereState = .error e :=
  c4_missing_where_fails_validation noWhereState rfl

/-- C10: for every non-empty input that reduces to exactly one (header)
line — and hence has no data rows — `parseCSVText` succeeds with empty
rows and `totalRows` 0, while `metadata.maxColumnCount` is the
`-Infinity` of `Math.max()` over an empty row list, not 0 and not the
header count. -/
theorem c10_header_only_maxcolumncount_neginf (text : List Char) (opts : CSVParser.Options)
    (l : List Char) (hne : text ≠ []) (hh : opts.hasHeader = true)
    (hl : CSVParser.linesOf text opts = [l]) :
    ∃ t, CSVParser.parseCSVText text opts = .ok t ∧ t.rows = [] ∧ t.totalRows = 0 ∧
      t.metadata.maxColumnCount = JSNum.negInf := by
  have hcne : CSVParser.parseCSVLine l (opts.delimiter.getD (CSVParser.detectDelimiter l))
      opts.trimValues ≠ [] := parseCSVLine_ne_nil l _ _
  unfold CSVParser.parseCSVText
  rw [if_neg hne, hl]
  simp only [hh, if_true, if_neg hcne]
  exact ⟨_, rfl, rfl, rfl, rfl⟩

/-- C10 (witness): the header-only input `a,b` parses to the empty row
list with `maxColumnCount` equal to `-Infinity`. -/
theorem c10_witness :
    ∃ t, CSVParser.parseCSVText headerOnlyInput {} = .ok t ∧ t.rows = [] ∧ t.totalRows = 0 ∧
      t.metadata.maxColumnCount = JSNum.negInf :=
  c10_header_only_maxcolumncount_neginf headerOnlyInput {}
    [Char.ofNat 97, Char.ofNat 44, Char.ofNat 98] (by decide) rfl (by rfl)

/-- Emptiness of the rendered WHERE fragments of a row coincides with the
absence of a usable WHERE marker. -/
theorem rowWhereFragments_nil_iff (row : SQLGenerator.GenRow) (syn : SQLGenerator.SyntaxDescriptor) :
    SQLGenerator.rowWhereFragments row syn = [] ↔ SQLGenerator.rowHasWhereField row = false := by
  rw [SQLGenerator.rowWhereFragments, SQLGenerator.rowHasWhereField,
    List.filterMap_eq_nil_iff, List.any_eq_false]
  constructor <;> intro h p hp <;> have h2 := h p hp
  · by_cases h1 : ("[WHERE]".data).isSuffixOf p.1.data ∧ SQLGenerator.valuePresent p.2 = true
    · rw [if_pos h1] at h2; cases h2
    · simp at h1 ⊢
      tauto
  · simp only [decide_eq_true_eq] at h2
    exact if_neg h2

/-- Emptiness of the rendered SET fragments of a row coincides with the
absence of a usable SET marker. -/
theorem rowSetFragments_nil_iff (row : SQLGenerator.GenRow) (syn : SQLGenerator.SyntaxDescriptor) :
    SQLGenerator.rowSetFragments row syn = [] ↔ SQLGenerator.rowHasSetField row = false := by
  rw [SQLGenerator.rowSetFragments, SQLGenerator.rowHasSetField,
    List.filterMap_eq_nil_iff, List.any_eq_false]
  constructor <;> intro h p hp <;> have h2 := h p hp
  · by_cases h1 : ¬ ("[WHERE]".data).isSuffixOf p.1.data ∧ ("[SET]".data).isSuffixOf p.1.data ∧
        SQLGenerator.valuePresent p.2 = true
    · rw [if_pos h1] at h2; cases h2
    · simp at h1 ⊢
      tauto
  · simp only [decide_eq_true_eq] at h2
    exact if_neg h2

/-- The UPDATE row loop throws as soon as any row lacks a usable WHERE
or SET marker, whatever has been accumulated before it. -/
theorem updateLoop_error_of_bad_row (tn : String) (syn : SQLGenerator.SyntaxDescriptor) :
    ∀ (rows : List SQLGenerator.GenRow),
      (∃ row ∈ rows, SQLGenerator.rowHasWhereField row = false ∨
        SQLGenerator.rowHasSetField row = false) →
      ∀ (sql : String) (count : Nat),
        ∃ e, SQLGenerator.updateLoop tn syn rows sql count = .error e := by
  intro rows
  induction rows with
  | nil => rintro ⟨row, hmem, _⟩; cases hmem
  | cons row rest ih =>
    rintro ⟨r0, hmem, hbad⟩ sql count
    by_cases hw : (SQLGenerator.rowWhereFragments row syn).isEmpty
    · exact ⟨"UPDATE mode requires at least one WHERE condition field (column name with [WHERE] suffix)", by
        simp only [SQLGenerator.updateLoop]
        rw [if_pos hw]⟩
    · by_cases hs : (SQLGenerator.rowSetFragments row syn).isEmpty
      · exact ⟨"UPDATE mode requires at least one SET field (column name with [SET] suffix)", by
          simp only [SQLGenerator.updateLoop]
          rw [if_neg hw, if_pos hs]⟩
      · have hr0 : r0 ∈ rest := by
          rcases List.mem_cons.mp hmem with h0 | h0
          · exfalso
            subst h0
            rcases hbad with hb | hb
            · rw [← rowWhereFragments_nil_iff r0 syn] at hb
              simp [hb] at hw
            · rw [← rowSetFragments_nil_iff r0 syn] at hb
              simp [hb] at hs
          · exact h0
        obtain ⟨e, he⟩ := ih ⟨r0, hr0, hbad⟩
          (sql ++ "UPDATE " ++ SQLGenerator.quoteIdentifier tn syn ++ "\n" ++
            "SET " ++ String.intercalate ", " (SQLGenerator.rowSetFragments row syn) ++ "\n" ++
            "WHERE " ++ String.intercalate " AND " (SQLGenerator.rowWhereFragments row syn) ++ ";\n\n")
          (count + 1)
        refine ⟨e, ?_⟩
        simp only [SQLGenerator.updateLoop]
        rw [if_neg hw, if_neg hs]
        exact he

/-- C1: whenever an UPDATE generation has some input row with no usable
`[WHERE]`-marked column (or no usable `[SET]`-marked column),
`generateSQL` returns an error and no SQL text — statements already built
for earlier rows are discarded with the failed computation and never
surface. -/
theorem c1_update_missing_marker_aborts (c : SQLGenerator.GenConfig)
    (hop : c.operation = "UPDATE")
    (hbad : ∃ row ∈ c.csvData.rows, SQLGenerator.rowHasWhereField row = false ∨
      SQLGenerator.rowHasSetField row = false) :
    ∃ e, SQLGenerator.generateSQL c = .error e := by
  unfold SQLGenerator.generateSQL
  cases hvc : SQLGenerator.validateConfig c with
  | error e => exact ⟨e, rfl⟩
  | ok u =>
    cases hsm : SQLGenerator.syntaxMap (jsToLower c.databaseType) with
    | none => exact ⟨"Unsupported database type: " ++ c.databaseType, rfl⟩
    | some syn =>
      obtain ⟨e, he⟩ := updateLoop_error_of_bad_row c.tableName syn c.csvData.rows hbad "" 0
      refine ⟨"SQL generation failed: " ++ e, ?_⟩
      have hne : c.operation ≠ "INSERT" := by rw [hop]; decide
      simp only [hop, hne, if_neg, if_pos, SQLGenerator.generateUpdateSQL, he]
      simp [he, SQLGenerator.generateUpdateSQL]
      rfl

/-- C1 (witness): the theorem applied to the concrete UPDATE
configuration whose single row carries only a SET marker. -/
theorem c1_witness : ∃ e, SQLGenerator.generateSQL updNoWhereConfig = .error e :=
  c1_update_missing_marker_aborts updNoWhereConfig rfl
    ⟨[("name[SET]", JSVal.str "x")], by decide, Or.inl (by decide)⟩

/-- The type-check loop returns the first predicate (in list order) whose
confidence reaches the 0.8 threshold, paired with that confidence. -/
theorem analyzeLoop_first_match (ne : List String) :
    ∀ (checks : List (String × (List Char → Bool))) (k : Nat) (hk : k < checks.length),
      (4 : Rat) / 5 ≤ FieldMapper.confidenceOf ne (checks.get ⟨k, hk⟩).2 →
      (∀ j (hj : j < k), FieldMapper.confidenceOf ne (checks.get ⟨j, Nat.lt_trans hj hk⟩).2 < 4 / 5) →
      FieldMapper.analyzeLoop ne checks =
        some ((checks.get ⟨k, hk⟩).1, FieldMapper.confidenceOf ne (checks.get ⟨k, hk⟩).2) := by
  intro checks
  induction checks with
  | nil => intro k hk; exact absurd hk (by simp)
  | cons ch rest ih =>
    intro k hk hwin hlose
    cases k with
    | zero =>
      simp only [List.get] at hwin ⊢
      simp only [FieldMapper.analyzeLoop]
      rw [if_pos hwin]
    | succ k =>
      have h0 : FieldMapper.confidenceOf ne ch.2 < 4 / 5 := by
        have := hlose 0 (Nat.succ_pos k)
        simpa using this
      simp only [FieldMapper.analyzeLoop]
      rw [if_neg (not_le.mpr h0)]
      have hk2 : k < rest.length := by simpa using hk
      have := ih k hk2 (by simpa using hwin) (fun j hj => by
        have := hlose (j + 1) (Nat.succ_lt_succ hj)
        simpa using this)
      simpa using this

/-- Lifting of `analyzeLoop_first_match` to `analyzeField` on a column
with at least one non-empty value. -/
theorem analyzeField_first_match (values : List String) (k : Nat)
    (hk : k < FieldMapper.typeChecks.length) (hne : values.filter (· ≠ "") ≠ [])
    (hwin : (4 : Rat) / 5 ≤ FieldMapper.confidenceOf (values.filter (· ≠ ""))
      (FieldMapper.typeChecks.get ⟨k, hk⟩).2)
    (hlose : ∀ j (hj : j < k), FieldMapper.confidenceOf (values.filter (· ≠ ""))
      (FieldMapper.typeChecks.get ⟨j, Nat.lt_trans hj hk⟩).2 < 4 / 5) :
    (FieldMapper.analyzeField values).jsType = (FieldMapper.typeChecks.get ⟨k, hk⟩).1 ∧
    (FieldMapper.analyzeField values).confidence =
      FieldMapper.confidenceOf (values.filter (· ≠ "")) (FieldMapper.typeChecks.get ⟨k, hk⟩).2 := by
  have hloop := analyzeLoop_first_match (values.filter (· ≠ "")) FieldMapper.typeChecks k hk hwin hlose
  have hie : (values.filter (· ≠ "")).isEmpty = false := by
    cases hfe : values.filter (· ≠ "") with
    | nil => exact absurd hfe hne
    | cons a t => simp
  constructor <;>
    simp only [FieldMapper.analyzeField, hie, Bool.false_eq_true, if_false, hloop]

/-- C6: type inference evaluates the ordered predicate list integer,
decimal, boolean, datetime, date, email (the order of `typeChecks`) and
classifies a column as the first type whose predicate matches at least
80 percent of the non-empty values, with confidence equal to the
matching fraction; in particular `["1","2","3"]` is classified integer
with confidence 1 and `["a@x.com","b@y.com"]` is classified email. -/
theorem c6_ordered_type_inference :
    (∀ (values : List String) (k : Nat) (hk : k < FieldMapper.typeChecks.length),
      values.filter (· ≠ "") ≠ [] →
      (4 : Rat) / 5 ≤ FieldMapper.confidenceOf (values.filter (· ≠ ""))
        (FieldMapper.typeChecks.get ⟨k, hk⟩).2 →
      (∀ j (hj : j < k), FieldMapper.confidenceOf (values.filter (· ≠ ""))
        (FieldMapper.typeChecks.get ⟨j, Nat.lt_trans hj hk⟩).2 < 4 / 5) →
      (FieldMapper.analyzeField values).jsType = (FieldMapper.typeChecks.get ⟨k, hk⟩).1 ∧
      (FieldMapper.analyzeField values).confidence =
        FieldMapper.confidenceOf (values.filter (· ≠ "")) (FieldMapper.typeChecks.get ⟨k, hk⟩).2) ∧
    (FieldMapper.analyzeField ["1", "2", "3"]).jsType = "integer" ∧
    (FieldMapper.analyzeField ["1", "2", "3"]).confidence = 1 ∧
    (FieldMapper.analyzeField ["a@x.com", "b@y.com"]).jsType = "email" := by
  have hcInt : FieldMapper.confidenceOf ((["1", "2", "3"] : List String).filter (· ≠ ""))
      (FieldMapper.typeChecks.get ⟨0, by decide⟩).2 = 1 := by
    rw [FieldMapper.confidenceOf,
      show ((["1", "2", "3"] : List String).filter (· ≠ "")).filter
        (fun v => (FieldMapper.typeChecks.get ⟨0, by decide⟩).2 (trimList v.data)) =
          ["1", "2", "3"] from by decide,
      show ((["1", "2", "3"] : List String).filter (· ≠ "")).length = 3 from by decide]
    norm_num
  have hInt := analyzeField_first_match ["1", "2", "3"] 0 (by decide) (by decide)
    (by rw [hcInt]; norm_num) (fun j hj => absurd hj (Nat.not_lt_zero j))
  have hcEmail : FieldMapper.confidenceOf ((["a@x.com", "b@y.com"] : List String).filter (· ≠ ""))
      (FieldMapper.typeChecks.get ⟨5, by decide⟩).2 = 1 := by
    rw [FieldMapper.confidenceOf,
      show ((["a@x.com", "b@y.com"] : List String).filter (· ≠ "")).filter
        (fun v => (FieldMapper.typeChecks.get ⟨5, by decide⟩).2 (trimList v.data)) =
          ["a@x.com", "b@y.com"] from by decide,
      show ((["a@x.com", "b@y.com"] : List String).filter (· ≠ "")).length = 2 from by decide]
    norm_num
  have hEmail := analyzeField_first_match ["a@x.com", "b@y.com"] 5 (by decide) (by decide)
    (by rw [hcEmail]; norm_num)
    (fun j hj => by
      interval_cases j <;>
        (rw [FieldMapper.confidenceOf]) <;>
        rw [show ((["a@x.com", "b@y.com"] : List String).filter (· ≠ "")).length = 2
          from by decide] <;>
        first
          | (rw [show ((["a@x.com", "b@y.com"] : List String).filter (· ≠ "")).filter
              (fun v => (FieldMapper.typeChecks.get ⟨0, by decide⟩).2 (trimList v.data)) = []
                from by decide]; norm_num)
          | (rw [show ((["a@x.com", "b@y.com"] : List String).filter (· ≠ "")).filter
              (fun v => (FieldMapper.typeChecks.get ⟨1, by decide⟩).2 (trimList v.data)) = []
                from by decide]; norm_num)
          | (rw [show ((["a@x.com", "b@y.com"] : List String).filter (· ≠ "")).filter
              (fun v => (FieldMapper.typeChecks.get ⟨2, by decide⟩).2 (trimList v.data)) = []
                from by decide]; norm_num)
          | (rw [show ((["a@x.com", "b@y.com"] : List String).filter (· ≠ "")).filter
              (fun v => (FieldMapper.typeChecks.get ⟨3, by decide⟩).2 (trimList v.data)) = []
                from by decide]; norm_num)
          | (rw [show ((["a@x.com", "b@y.com"] : List String).filter (· ≠ "")).filter
              (fun v => (FieldMapper.typeChecks.get ⟨4, by decide⟩).2 (trimList v.data)) = []
                from by decide]; norm_num))
  refine ⟨analyzeField_first_match, hInt.1, ?_, hEmail.1⟩
  rw [hInt.2, hcInt]

/-- C6 (witness): the general first-match statement applied to the
concrete column `["5","5"]` at index 0 (integer). -/
theorem c6_witness :
    (FieldMapper.analyzeField ["5", "5"]).jsType = "integer" ∧
    (FieldMapper.analyzeField ["5", "5"]).confidence =
      FieldMapper.confidenceOf ((["5", "5"] : List String).filter (· ≠ ""))
        (FieldMapper.typeChecks.get ⟨0, by decide⟩).2 :=
  c6_ordered_type_inference.1 ["5", "5"] 0 (by decide) (by decide)
    (by
      rw [FieldMapper.confidenceOf,
        show ((["5", "5"] : List String).filter (· ≠ "")).filter
          (fun v => (FieldMapper.typeChecks.get ⟨0, by decide⟩).2 (trimList v.data)) =
            ["5", "5"] from by decide,
        show ((["5", "5"] : List String).filter (· ≠ "")).length = 2 from by decide]
      norm_num)
    (fun j hj => absurd hj (Nat.not_lt_zero j))

open SQLGenerator in
/-- Slicing an empty row list yields no batches, for any fuel. -/
theorem chunkFuel_nil_input (b fuel : Nat) : chunkFuel b fuel ([] : List α) = [] := by
  cases fuel <;> rfl

open SQLGenerator in
/-- With enough fuel and a positive width, the batches concatenate back
to the original list: the partition is consecutive and complete. -/
theorem chunkFuel_flatten (b : Nat) (hb : 1 ≤ b) :
    ∀ (fuel : Nat) (l : List α), l.length ≤ fuel → (chunkFuel b fuel l).flatten = l := by
  intro fuel
  induction fuel with
  | zero =>
    intro l hl
    rw [List.length_eq_zero.mp (Nat.le_zero.mp hl)]
    rfl
  | succ fuel ih =>
    intro l hl
    cases l with
    | nil => rfl
    | cons x xs =>
      simp only [chunkFuel, List.flatten_cons]
      rw [ih ((x :: xs).drop b) (by simp only [List.length_drop, List.length_cons] at hl ⊢; omega)]
      exact List.take_append_drop b (x :: xs)

open SQLGenerator in
/-- With enough fuel and a positive width `b`, the number of batches is
the ceiling of the list length over `b`. -/
theorem chunkFuel_count (b : Nat) (hb : 1 ≤ b) :
    ∀ (fuel : Nat) (l : List α), l.length ≤ fuel →
      (chunkFuel b fuel l).length = (l.length + b - 1) / b := by
  intro fuel
  induction fuel with
  | zero =>
    intro l hl
    rw [List.length_eq_zero.mp (Nat.le_zero.mp hl), chunkFuel_nil_input]
    rw [List.length_nil, List.length_nil, Nat.div_eq_of_lt (by omega)]
  | succ fuel ih =>
    intro l hl
    cases l with
    | nil =>
      rw [chunkFuel_nil_input]
      rw [List.length_nil, List.length_nil, Nat.div_eq_of_lt (by omega)]
    | cons x xs =>
      simp only [chunkFuel, List.length_cons]
      rw [ih ((x :: xs).drop b) (by simp only [List.length_drop, List.length_cons] at hl ⊢; omega)]
      simp only [List.length_drop, List.length_cons]
      rw [show xs.length + 1 + b - 1 = (xs.length + 1 - 1) + b from by omega,
        Nat.add_div_right _ (by omega : 0 < b)]
      rcases le_or_lt b (xs.length + 1) with hbn | hbn
      · rw [show xs.length + 1 - b + b - 1 = xs.length + 1 - 1 from by omega]
      · rw [show xs.length + 1 - b + b - 1 = b - 1 from by omega,
          Nat.div_eq_of_lt (by omega), Nat.div_eq_of_lt (by omega)]

open SQLGenerator in
/-- Every batch produced is non-empty and no longer than the width. -/
theorem chunkFuel_batch_sizes (b : Nat) (hb : 1 ≤ b) :
    ∀ (fuel : Nat) (l : List α), l.length ≤ fuel →
      ∀ batch ∈ chunkFuel b fuel l, 0 < batch.length ∧ batch.length ≤ b := by
  intro fuel
  induction fuel with
  | zero =>
    intro l hl batch hmem
    rw [List.length_eq_zero.mp (Nat.le_zero.mp hl), chunkFuel_nil_input] at hmem
    cases hmem
  | succ fuel ih =>
    intro l hl batch hmem
    cases l with
    | nil => rw [chunkFuel_nil_input] at hmem; cases hmem
    | cons x xs =>
      simp only [chunkFuel] at hmem
      rcases List.mem_cons.mp hmem with h1 | h1
      · subst h1
        constructor
        · simp only [List.length_take, List.length_cons]
          omega
        · simp only [List.length_take]
          omega
      · exact ih ((x :: xs).drop b) (by simp only [List.length_drop, List.length_cons] at hl ⊢; omega) batch h1

open SQLGenerator in
/-- A non-empty row list yields at least one batch. -/
theorem chunkFuel_ne_nil (b : Nat) (hb : 1 ≤ b) (fuel : Nat) (x : α) (xs : List α)
    (hl : (x :: xs).length ≤ fuel) : chunkFuel b fuel (x :: xs) ≠ [] := by
  cases fuel with
  | zero => simp at hl
  | succ fuel => simp [chunkFuel]

open SQLGenerator in
/-- Every batch except possibly the last is exactly the width. -/
theorem chunkFuel_dropLast_sizes (b : Nat) (hb : 1 ≤ b) :
    ∀ (fuel : Nat) (l : List α), l.length ≤ fuel →
      ∀ batch ∈ (chunkFuel b fuel l).dropLast, batch.length = b := by
  intro fuel
  induction fuel with
  | zero =>
    intro l hl batch hmem
    rw [List.length_eq_zero.mp (Nat.le_zero.mp hl), chunkFuel_nil_input] at hmem
    cases hmem
  | succ fuel ih =>
    intro l hl batch hmem
    cases l with
    | nil => rw [chunkFuel_nil_input] at hmem; cases hmem
    | cons x xs =>
      simp only [chunkFuel] at hmem
      cases hd : (x :: xs).drop b with
      | nil =>
        rw [hd, chunkFuel_nil_input] at hmem
        simp at hmem
      | cons y ys =>
        have hfe : chunkFuel b fuel ((x :: xs).drop b) ≠ [] := by
          rw [hd]
          exact chunkFuel_ne_nil b hb fuel y ys (by
            rw [← hd]
            simp only [List.length_drop, List.length_cons] at hl ⊢
            omega)
        rw [List.dropLast_cons_of_ne_nil hfe] at hmem
        rcases List.mem_cons.mp hmem with h1 | h1
        · subst h1
          have hlb : b < (x :: xs).length := by
            by_contra hc
            push_neg at hc
            rw [List.drop_eq_nil_of_le hc] at hd
            cases hd
          simp only [List.length_take, List.length_cons]
          simp only [List.length_cons] at hlb
          omega
        · exact ih ((x :: xs).drop b) (by simp only [List.length_drop, List.length_cons] at hl ⊢; omega) batch h1

open SQLGenerator in
/-- Folding the INSERT batch step advances the record counter by the
total number of rows and the batch counter by the number of batches. -/
theorem foldl_insertBatchStep_counts (c : GenConfig) (syn : SyntaxDescriptor) :
    ∀ (batches : List (List GenRow)) (acc : StatementsResult),
      (batches.foldl (insertBatchStep c syn) acc).recordCount =
        acc.recordCount + (batches.map List.length).sum ∧
      (batches.foldl (insertBatchStep c syn) acc).batchCount =
        acc.batchCount + batches.length := by
  intro batches
  induction batches with
  | nil => intro acc; simp
  | cons batch rest ih =>
    intro acc
    simp only [List.foldl_cons, List.map_cons, List.sum_cons, List.length_cons]
    have := ih (insertBatchStep c syn acc batch)
    rw [this.1, this.2]
    simp only [insertBatchStep]
    omega

open SQLGenerator in
/-- A configuration accepted by `validateConfig` names one of the four
dialects, so the syntax lookup succeeds. -/
theorem validateConfig_ok_syntaxMap (c : GenConfig) (h : validateConfig c = .ok ()) :
    ∃ syn, syntaxMap (jsToLower c.databaseType) = some syn := by
  simp only [validateConfig] at h
  split at h
  · cases h
  · split at h
    · cases h
    · split at h
      · cases h
      · split at h
        · cases h
        · split at h
          · cases h
          · split at h
            · cases h
            · rename_i hsup _
              rw [not_not] at hsup
              have hmem : jsToLower c.databaseType ∈ supportedDatabases := by
                simpa using hsup
              simp only [supportedDatabases, List.mem_cons, List.not_mem_nil, or_false] at hmem
              rcases hmem with h | h | h | h <;> rw [h] <;> exact ⟨_, rfl⟩

open SQLGenerator in
/-- For a valid INSERT configuration whose batch-size option parses to
an integer b at least 1, generation succeeds, the reported record count
equals the row count, the batch count is the ceiling of rows over b,
and the batch partition is consecutive with every batch of size b
except a smaller final remainder. -/
theorem generateSQL_insert_partition (c : GenConfig) (b : Int)
    (hvc : validateConfig c = .ok ())
    (hop : c.operation = "INSERT")
    (hbs : parseIntJS c.options.batchSize = some b)
    (hb : 1 ≤ b) :
    ∃ r, generateSQL c = .ok r ∧
      r.metadata.recordCount = c.csvData.rows.length ∧
      r.metadata.batchCount = (c.csvData.rows.length + b.toNat - 1) / b.toNat ∧
      (chunkList b.toNat c.csvData.rows).flatten = c.csvData.rows ∧
      (∀ batch ∈ (chunkList b.toNat c.csvData.rows).dropLast, batch.length = b.toNat) ∧
      (∀ batch ∈ chunkList b.toNat c.csvData.rows, 0 < batch.length ∧ batch.length ≤ b.toNat) := by
  obtain ⟨syn, hsm⟩ := validateConfig_ok_syntaxMap c hvc
  have hbn : 1 ≤ b.toNat := by omega
  have heb : effectiveBatchSize c.options.batchSize = b := by
    simp only [effectiveBatchSize, hbs]
    rw [if_neg (by omega : ¬ b = 0)]
  have hcl : chunkList b.toNat c.csvData.rows =
      chunkFuel b.toNat c.csvData.rows.length c.csvData.rows := by
    rw [chunkList, if_neg (by omega)]
  have hflat : (chunkList b.toNat c.csvData.rows).flatten = c.csvData.rows := by
    rw [hcl]
    exact chunkFuel_flatten b.toNat hbn _ _ le_rfl
  have hsum : ((chunkList b.toNat c.csvData.rows).map List.length).sum = c.csvData.rows.length := by
    rw [← List.length_flatten, hflat]
  have hcnt : (chunkList b.toNat c.csvData.rows).length =
      (c.csvData.rows.length + b.toNat - 1) / b.toNat := by
    rw [hcl]
    exact chunkFuel_count b.toNat hbn _ _ le_rfl
  have hins : generateInsertSQL c syn =
      (chunkList (effectiveBatchSize c.options.batchSize).toNat c.csvData.rows).foldl
        (insertBatchStep c syn)
        { sql := if c.options.includeCreateTable then
            generateCreateTableSQL c.tableName c.fieldMappings syn ++ "\n\n" else "" } := rfl
  have hrec : (generateInsertSQL c syn).recordCount = c.csvData.rows.length := by
    rw [hins, heb]
    rw [(foldl_insertBatchStep_counts c syn _ _).1]
    simpa using hsum
  have hbat : (generateInsertSQL c syn).batchCount =
      (c.csvData.rows.length + b.toNat - 1) / b.toNat := by
    rw [hins, heb]
    rw [(foldl_insertBatchStep_counts c syn _ _).2]
    simpa using hcnt
  have hne : c.operation ≠ "UPDATE" := by rw [hop]; decide
  simp only [generateSQL, hvc, hsm, hop]
  try rw [if_pos rfl]
  refine ⟨_, rfl, ?_, ?_, hflat, ?_, ?_⟩
  · simpa using hrec
  · simpa using hbat
  · intro batch hmem
    rw [hcl] at hmem
    exact chunkFuel_dropLast_sizes b.toNat hbn _ _ le_rfl batch hmem
  · intro batch hmem
    rw [hcl] at hmem
    exact chunkFuel_batch_sizes b.toNat hbn _ _ le_rfl batch hmem

/-- C7: for every valid INSERT configuration with numeric batch size
b at least 1 over n rows, the rows are partitioned into the ceiling of
n over b consecutive batches — each of size b except a smaller final
remainder, with batchSize 2 over 5 rows yielding batch sizes [2,2,1] —
and the total number of emitted value rows, reported as
`metadata.recordCount`, equals n, the row count of the parsed table. -/
theorem c7_batch_partition_counts :
    (∀ (c : SQLGenerator.GenConfig) (b : Int),
      SQLGenerator.validateConfig c = .ok () →
      c.operation = "INSERT" →
      SQLGenerator.parseIntJS c.options.batchSize = some b →
      1 ≤ b →
      ∃ r, SQLGenerator.generateSQL c = .ok r ∧
        r.metadata.recordCount = c.csvData.rows.length ∧
        r.metadata.batchCount = (c.csvData.rows.length + b.toNat - 1) / b.toNat ∧
        (SQLGenerator.chunkList b.toNat c.csvData.rows).flatten = c.csvData.rows ∧
        (∀ batch ∈ (SQLGenerator.chunkList b.toNat c.csvData.rows).dropLast,
          batch.length = b.toNat) ∧
        (∀ batch ∈ SQLGenerator.chunkList b.toNat c.csvData.rows,
          0 < batch.length ∧ batch.length ≤ b.toNat)) ∧
    (SQLGenerator.chunkList 2 (List.replicate 5 ([] : SQLGenerator.GenRow))).map List.length =
      [2, 2, 1] :=
  ⟨generateSQL_insert_partition, by rfl⟩

/-- C7 (witness): the partition statement applied to the concrete
5-row INSERT configuration with numeric batch size 2. -/
theorem c7_witness :
    ∃ r, SQLGenerator.generateSQL batchTwoConfig = .ok r ∧
      r.metadata.recordCount = batchTwoConfig.csvData.rows.length ∧
      r.metadata.batchCount =
        (batchTwoConfig.csvData.rows.length + (2 : Int).toNat - 1) / (2 : Int).toNat ∧
      (SQLGenerator.chunkList (2 : Int).toNat batchTwoConfig.csvData.rows).flatten =
        batchTwoConfig.csvData.rows ∧
      (∀ batch ∈ (SQLGenerator.chunkList (2 : Int).toNat batchTwoConfig.csvData.rows).dropLast,
        batch.length = (2 : Int).toNat) ∧
      (∀ batch ∈ SQLGenerator.chunkList (2 : Int).toNat batchTwoConfig.csvData.rows,
        0 < batch.length ∧ batch.length ≤ (2 : Int).toNat) :=
  c7_batch_partition_counts.1 batchTwoConfig 2 (by rfl) rfl rfl (by decide)

/-- Trimming leaves a list without whitespace characters unchanged. -/
theorem trimList_of_no_whitespace (l : List Char) (h : ∀ c ∈ l, isJsWhitespace c = false) :
    trimList l = l := by
  have h1 : l.dropWhile isJsWhitespace = l := by
    cases l with
    | nil => rfl
    | cons a t => simp [List.dropWhile_cons, h a (List.mem_cons_self a t)]
  have h2 : l.reverse.dropWhile isJsWhitespace = l.reverse := by
    cases hr : l.reverse with
    | nil => rfl
    | cons b t =>
      have hb : b ∈ l := by
        rw [← List.mem_reverse, hr]
        exact List.mem_cons_self b t
      rw [← hr]
      cases hr2 : l.reverse with
      | nil => rfl
      | cons b2 t2 =>
        have hb2 : b2 ∈ l := by
          rw [← List.mem_reverse, hr2]
          exact List.mem_cons_self b2 t2
        simp [List.dropWhile_cons, h b2 hb2]
  rw [trimList, h1, h2, List.reverse_reverse]

open CSVParser in
/-- Line splitting leaves a text without LF or CR as a single line. -/
theorem splitLines_no_break (l : List Char)
    (h : ∀ c ∈ l, ¬ c = Char.ofNat 10 ∧ ¬ c = Char.ofNat 13) : splitLines l = [l] := by
  induction l with
  | nil => rfl
  | cons c t ih =>
    have hc := h c (List.mem_cons_self c t)
    cases t with
    | nil =>
      simp only [splitLines]
      rw [if_neg hc.1]
    | cons c2 t2 =>
      have ht : ∀ x ∈ (c2 :: t2), ¬ x = Char.ofNat 10 ∧ ¬ x = Char.ofNat 13 :=
        fun x hx => h x (List.mem_cons_of_mem c hx)
      simp only [splitLines]
      rw [if_neg hc.1, if_neg hc.2, ih ht]
      rfl

open CSVParser in
/-- Tokenizing a line without quote or delimiter characters yields the
single trimmed field accumulated so far plus the line. -/
theorem parseLineAux_plain_line (delim : Char) :
    ∀ (l : List Char),
      (∀ ch ∈ l, ¬ ch = Char.ofNat 34 ∧ ¬ ch = sqChar ∧ ¬ ch = delim) →
      ∀ (cur : List Char),
        parseLineAux delim true l cur false (Char.ofNat 34) = [trimList (cur ++ l)] := by
  intro l
  induction l with
  | nil => intro h cur; simp [parseLineAux]
  | cons c t ih =>
    intro h cur
    have hc := h c (List.mem_cons_self c t)
    cases t with
    | nil =>
      simp only [parseLineAux]
      rw [if_neg (by simp [hc.1, hc.2.1]), if_neg (by simp [hc.2.2])]
      simp
    | cons c2 t2 =>
      have ht : ∀ x ∈ (c2 :: t2), ¬ x = Char.ofNat 34 ∧ ¬ x = sqChar ∧ ¬ x = delim :=
        fun x hx => h x (List.mem_cons_of_mem c hx)
      simp only [parseLineAux]
      rw [if_neg (by simp [hc.1, hc.2.1]), if_neg (by simp [hc.2.2]), ih ht (cur ++ [c])]
      simp

open CSVParser in
/-- A text made of two break-free parts around one LF splits into
exactly those two lines. -/
theorem splitLines_single_break (q : List Char) (hqne : q ≠ [])
    (hq : ∀ c ∈ q, ¬ c = Char.ofNat 10 ∧ ¬ c = Char.ofNat 13) :
    ∀ (p : List Char), (∀ c ∈ p, ¬ c = Char.ofNat 10 ∧ ¬ c = Char.ofNat 13) →
      splitLines (p ++ Char.ofNat 10 :: q) = [p, q] := by
  intro p
  induction p with
  | nil =>
    intro _
    rw [List.nil_append]
    rcases hq0 : q with _ | ⟨q0, qt⟩
    · exact absurd hq0 hqne
    · subst hq0
      simp only [splitLines]
      rw [if_pos trivial, splitLines_no_break (q0 :: qt) hq]
  | cons c p2 ih =>
    intro hp
    have hc := hp c (List.mem_cons_self c p2)
    have hp2 := fun x hx => hp x (List.mem_cons_of_mem c hx)
    rcases htail : p2 ++ Char.ofNat 10 :: q with _ | ⟨d, ds⟩
    · exact absurd htail (by simp)
    · rw [List.cons_append, htail]
      simp only [splitLines]
      rw [if_neg hc.1, if_neg hc.2, ← htail, ih hp2]
      rfl

/-- Byte length of a cons. -/
theorem byteLength_cons (c : Char) (l : List Char) :
    byteLength (c :: l) = c.utf8Size + byteLength l := by
  simp [byteLength]

/-- Byte length of a repeated single character. -/
theorem byteLength_replicate (n : Nat) (c : Char) :
    byteLength (List.replicate n c) = n * c.utf8Size := by
  simp [byteLength, List.map_replicate, List.sum_replicate, smul_eq_mul]

open CSVParser in
/-- C2 (failing-input evaluation): the concrete input of one `a,b`
header line and one data row of 10485760 characters exceeds the 10MB
`maxFileSize` ceiling in UTF-8 bytes, yet `parseCSVText` does not abort:
it returns a parsed table with one row.  The byte-size ceiling declared
by the parser is never checked. -/
theorem c2_oversized_input_parses :
    maxFileSize < byteLength oversizedInput ∧
    ∃ t, parseCSVText oversizedInput {} = .ok t ∧ t.totalRows = 1 := by
  have hrep99 : ∀ c ∈ List.replicate bigN (Char.ofNat 99), c = Char.ofNat 99 :=
    fun c hc => List.eq_of_mem_replicate hc
  have hrepne : List.replicate bigN (Char.ofNat 99) ≠ [] := by
    intro hnil
    have h0 : (List.replicate bigN (Char.ofNat 99)).length = 0 := by rw [hnil]; rfl
    rw [List.length_replicate, bigN] at h0
    omega
  have hrepnb : ∀ c ∈ List.replicate bigN (Char.ofNat 99),
      ¬ c = Char.ofNat 10 ∧ ¬ c = Char.ofNat 13 := by
    intro c hc
    rw [hrep99 c hc]
    exact ⟨by decide, by decide⟩
  constructor
  · unfold oversizedInput
    rw [byteLength_cons, byteLength_cons, byteLength_cons, byteLength_cons,
      byteLength_replicate]
    rw [show (Char.ofNat 97).utf8Size = 1 from by decide,
      show (Char.ofNat 44).utf8Size = 1 from by decide,
      show (Char.ofNat 98).utf8Size = 1 from by decide,
      show (Char.ofNat 10).utf8Size = 1 from by decide,
      show (Char.ofNat 99).utf8Size = 1 from by decide]
    rw [maxFileSize, bigN]
    omega
  · have hbom : removeBOM oversizedInput = oversizedInput := by
      rw [oversizedInput]
      simp only [removeBOM]
      rw [if_neg (by decide), if_neg (by
        simp only [List.take_succ_cons, List.take_zero]
        decide)]
    have hsplit : splitLines oversizedInput =
        [[Char.ofNat 97, Char.ofNat 44, Char.ofNat 98], List.replicate bigN (Char.ofNat 99)] := by
      rw [show oversizedInput = [Char.ofNat 97, Char.ofNat 44, Char.ofNat 98] ++
        Char.ofNat 10 :: List.replicate bigN (Char.ofNat 99) from rfl]
      exact splitLines_single_break _ hrepne hrepnb _ (by decide)
    have htrimrep : trimList (List.replicate bigN (Char.ofNat 99)) =
        List.replicate bigN (Char.ofNat 99) := by
      refine trimList_of_no_whitespace _ (fun c hc => ?_)
      rw [hrep99 c hc]
      decide
    have htrimhdr : trimList [Char.ofNat 97, Char.ofNat 44, Char.ofNat 98] ≠ [] := by decide
    have htrne : trimList (List.replicate bigN (Char.ofNat 99)) ≠ [] := by
      rw [htrimrep]
      exact hrepne
    have hlines : linesOf oversizedInput {} =
        [[Char.ofNat 97, Char.ofNat 44, Char.ofNat 98], List.replicate bigN (Char.ofNat 99)] := by
      rw [linesOf, hbom, hsplit]
      simp only [List.filter_cons, List.filter_nil, decide_eq_true_eq]
      rw [if_pos trivial, if_pos htrimhdr, if_pos htrne]
    have hrowline : parseCSVLine (List.replicate bigN (Char.ofNat 99)) (Char.ofNat 44) true =
        [List.replicate bigN (Char.ofNat 99)] := by
      rw [parseCSVLine, parseLineAux_plain_line (Char.ofNat 44) _ (fun ch hch => by
        rw [hrep99 ch hch]
        exact ⟨by decide, by decide, by decide⟩) []]
      rw [List.nil_append, htrimrep]
    have hrows : parseRowsAux (Char.ofNat 44) true true 2
        [List.replicate bigN (Char.ofNat 99)] 0 = [[List.replicate bigN (Char.ofNat 99), []]] := by
      simp only [parseRowsAux]
      rw [if_neg (by decide : ¬ ((0 : Nat) ≥ maxRows)), hrowline]
      rw [if_neg (by
        simp only [List.all_cons, List.all_nil, Bool.and_true, decide_eq_true_eq]
        intro hcon
        exact hrepne hcon.2)]
      rw [show padRow 2 [List.replicate bigN (Char.ofNat 99)] =
        [List.replicate bigN (Char.ofNat 99), []] from by simp [padRow]]
    rw [parseCSVText]
    rw [if_neg (by simp [oversizedInput]), hlines]
    have hhdr : parseCSVLine [Char.ofNat 97, Char.ofNat 44, Char.ofNat 98]
        ((({} : Options)).delimiter.getD (detectDelimiter [Char.ofNat 97, Char.ofNat 44, Char.ofNat 98]))
        (({} : Options)).trimValues = [[Char.ofNat 97], [Char.ofNat 98]] := by decide
    simp only [hhdr, if_true]
    rw [if_neg (by decide : ¬ (([[Char.ofNat 97], [Char.ofNat 98]]) : List (List Char)) = [])]
    refine ⟨_, rfl, ?_⟩
    simp only [mkRawTable]
    rw [show (none : Option Char).getD
      (detectDelimiter [Char.ofNat 97, Char.ofNat 44, Char.ofNat 98]) = Char.ofNat 44 from by decide]
    rw [show ([[Char.ofNat 97], [Char.ofNat 98]] : List (List Char)).length = 2 from rfl]
    rw [hrows]
    rfl
